import Mathlib

/-!
Shallow embedding of the fill-validation and dispense-control core of
`src/sketch.ino` (Masticat IOT pet feeder).

Floats of the sketch are modelled as rationals (`ℚ`); the comparisons and
arithmetic of the core are order/field operations, so `ℚ` is a faithful
exact model of the control flow.  Hardware sensor reads (`HX711.get_units`,
ultrasonic echo pulse) and HTTP responses are passed in as explicit
arguments; everything else follows the source line by line.
-/

namespace Masticat

/-- Source line 32: `TOTAL_WATER_CONTAINER_HEIGHT 200.0`. -/
def TOTAL_WATER_CONTAINER_HEIGHT : ℚ := 200

/-- Source line 33: `WATER_CONTAINER_OFFSET 100`. -/
def WATER_CONTAINER_OFFSET : ℚ := 100

/-- The global mutable state of the sketch, lines 45-54. -/
structure SketchState where
  deviceId : String
  foodQuantity : ℚ
  waterQuantity : ℚ
  foodLimit : ℚ
  waterLimit : ℚ
  isFillingProcess : Bool
  initialTotalFood : ℚ
  initialTotalWater : ℚ
  isDispensing : Bool
  deriving DecidableEq, Repr

/-- Boot values of the globals, lines 45-54: all quantities and limits 0,
no fill session, no dispensing. -/
def initialState : SketchState :=
  { deviceId := ""
    foodQuantity := 0
    waterQuantity := 0
    foodLimit := 0
    waterLimit := 0
    isFillingProcess := false
    initialTotalFood := 0
    initialTotalWater := 0
    isDispensing := false }

/-- `measureWaterLevel` (lines 160-173).  `duration` is the echo pulse length
returned by `pulseIn`; `waterLimit` is the global read on line 170, passed
explicitly here. -/
def measureWaterLevel (duration : ℤ) (height : ℚ) (waterLimit : ℚ) : ℚ :=
  let distance : ℚ := (duration : ℚ) / 58 - WATER_CONTAINER_OFFSET
  let waterHeight : ℚ := height - distance
  let waterVolume : ℚ := (waterHeight / height) * waterLimit
  if waterVolume > 0 then waterVolume else 0

/-- `struct FillValidationResult` (lines 57-61). -/
structure FillValidationResult where
  addedFood : ℚ
  addedWater : ℚ
  valid : Bool
  deriving DecidableEq, Repr

/-- The observable outcome of a fill validation: `accepted` when
`result.valid = true`; the two overflow constructors record which LCD
message (lines 186 / 193) was shown. -/
inductive FillOutcome
  | accepted
  | foodOverflow
  | waterOverflow
  deriving DecidableEq, Repr

/-- `validateFillQuantity` (lines 175-200).  `currentTotalFood` is the
scale reading of line 178 and `currentTotalWater` the measured volume of
line 179, passed in as arguments. -/
def validateFillQuantity (st : SketchState) (currentTotalFood currentTotalWater : ℚ) :
    FillValidationResult × FillOutcome :=
  let addedFood : ℚ := currentTotalFood - st.initialTotalFood
  let addedWater : ℚ := currentTotalWater - st.initialTotalWater
  if addedFood + st.foodQuantity > st.foodLimit then
    (⟨addedFood, addedWater, false⟩, .foodOverflow)
  else if addedWater + st.waterQuantity > st.waterLimit then
    (⟨addedFood, addedWater, false⟩, .waterOverflow)
  else
    (⟨addedFood, addedWater, true⟩, .accepted)

/-- One POST issued by `makePostRequest` (lines 203-206): the body fields
other than `deviceId`. -/
structure PostRequest where
  reqType : String
  quantity : ℚ
  action : String
  deriving DecidableEq, Repr

/-- Possible fates of the POST of line 214: `httpError` for
`httpResponseCode <= 0`, `parseError` for a body `deserializeJson`
rejects, `ok` for a parsed `{food_quantity, water_quantity}` body. -/
inductive PostResponse
  | httpError
  | parseError
  | ok (food_quantity water_quantity : ℚ)
  deriving DecidableEq, Repr

/-- `makePostRequest` (lines 202-229): on a parsed response both cached
quantities are overwritten from the body (lines 223-224); on any failure
the state is untouched.  Returns the request that was issued alongside
the new state. -/
def makePostRequest (st : SketchState) (reqType : String) (quantity : ℚ)
    (action : String) (response : PostResponse) : SketchState × PostRequest :=
  let req : PostRequest := ⟨reqType, quantity, action⟩
  match response with
  | .ok fq wq => ({ st with foodQuantity := fq, waterQuantity := wq }, req)
  | _ => (st, req)

/-- `startFillProcess` (lines 151-158): sets the session flag and captures
the two baseline readings. -/
def startFillProcess (st : SketchState) (totalFoodReading : ℚ)
    (waterEchoDuration : ℤ) : SketchState :=
  { st with
    isFillingProcess := true
    initialTotalFood := totalFoodReading
    initialTotalWater :=
      measureWaterLevel waterEchoDuration TOTAL_WATER_CONTAINER_HEIGHT st.waterLimit }

/-- `endFillProcess` (lines 232-246): validate, bail out on `!valid`,
otherwise POST the food delta when `> 0` and then the water delta when
`> 0`.  The two `PostResponse` arguments are the server's answers to the
(up to two) POSTs; the returned list records the POSTs actually issued. -/
def endFillProcess (st : SketchState) (currentTotalFood currentTotalWater : ℚ)
    (foodResponse waterResponse : PostResponse) : SketchState × List PostRequest :=
  let validationResult := (validateFillQuantity st currentTotalFood currentTotalWater).1
  if validationResult.valid = false then (st, [])
  else
    let step1 : SketchState × List PostRequest :=
      if validationResult.addedFood > 0 then
        let r := makePostRequest st "food" validationResult.addedFood "add" foodResponse
        (r.1, [r.2])
      else (st, [])
    if validationResult.addedWater > 0 then
      let r := makePostRequest step1.1 "water" validationResult.addedWater "add" waterResponse
      (r.1, step1.2 ++ [r.2])
    else step1

/-- Possible fates of the GET of line 129: no WiFi (line 124 guard),
`httpResponseCode <= 0`, a body `deserializeJson` rejects, or a parsed
device document. -/
inductive FetchResponse
  | noWifi
  | httpError
  | parseError
  | ok (id : String) (food_quantity water_quantity food_limit water_limit : ℚ)
  deriving DecidableEq, Repr

/-- `fetchDeviceInfo` (lines 123-149): on a parsed response all five cached
fields are overwritten and `true` is returned; every failure path falls
through to `return false` with the state untouched. -/
def fetchDeviceInfo (st : SketchState) (response : FetchResponse) :
    SketchState × Bool :=
  match response with
  | .ok i fq wq fl wl =>
      ({ st with
          deviceId := i
          foodQuantity := fq
          waterQuantity := wq
          foodLimit := fl
          waterLimit := wl }, true)
  | _ => (st, false)

/-- `startFoodDispensing` (lines 248-255): sets `isDispensing`, reads the
tray scale into a local that the source never uses again, and drives the
servo to 180 (open).  The returned number is the servo angle written.
The `amount` argument is accepted and ignored, exactly as in the source. -/
def startFoodDispensing (st : SketchState) (amount : ℚ) (trayReading : ℚ) :
    SketchState × ℕ :=
  let initialWeight : ℚ := trayReading
  ({ st with isDispensing := true }, 180)

/-- `stopFoodDispensing` (lines 281-284): servo to 0 (closed), clear the
dispensing flag. -/
def stopFoodDispensing (st : SketchState) : SketchState × ℕ :=
  ({ st with isDispensing := false }, 0)

/-- `monitorFoodDispensing` (lines 270-279).  The source calls
`trayFoodScale.get_units()` twice (lines 271 and 272); the two readings are
the two arguments.  Note the source recomputes `initialWeight` from the
second current reading minus the target - it never consults the baseline
captured at `startFoodDispensing`.  Returns `some angle` when a servo
command was issued. -/
def monitorFoodDispensing (st : SketchState) (targetAmount : ℚ)
    (firstReading secondReading : ℚ) : SketchState × Option ℕ :=
  let currentWeight : ℚ := firstReading
  let initialWeight : ℚ := secondReading - targetAmount
  let dispensedAmount : ℚ := currentWeight - initialWeight
  if dispensedAmount ≥ targetAmount then
    let r := stopFoodDispensing st
    (r.1, some r.2)
  else (st, none)

/-- Result of one `checkAndDispenseFood` call: the new state, the amount a
`startFoodDispensing` call was issued with (if any), and the servo angles
written during the call, in order. -/
structure DispenseStep where
  state : SketchState
  started : Option ℚ
  servoCommands : List ℕ
  deriving DecidableEq, Repr

/-- `checkAndDispenseFood` (lines 257-268): start a dispense when the
server-side difference is positive and none is active, then (still in the
same call) monitor while dispensing.  `trayStartReading` feeds the read of
line 251; the two monitor readings feed lines 271-272. -/
def checkAndDispenseFood (st : SketchState)
    (previousFoodQuantity actualQuanitty : ℚ)
    (trayStartReading firstMonitorReading secondMonitorReading : ℚ) : DispenseStep :=
  let difference : ℚ := previousFoodQuantity - actualQuanitty
  let step1 : DispenseStep :=
    if difference > 0 ∧ st.isDispensing = false then
      let r := startFoodDispensing st difference trayStartReading
      ⟨r.1, some difference, [r.2]⟩
    else ⟨st, none, []⟩
  if step1.state.isDispensing = true then
    let r := monitorFoodDispensing step1.state difference
      firstMonitorReading secondMonitorReading
    match r.2 with
    | some angle => ⟨r.1, step1.started, step1.servoCommands ++ [angle]⟩
    | none => ⟨r.1, step1.started, step1.servoCommands⟩
  else step1

/-- C10: with a cached `waterLimit` of 0 - the boot value, kept until the
first successful device fetch - `measureWaterLevel` returns exactly 0 for
every echo pulse duration, so every water delta computed from two such
measurements is 0. -/
theorem measureWaterLevel_zero_limit (d1 d2 : ℤ) (height : ℚ) :
    measureWaterLevel d1 height 0 = 0 ∧
    measureWaterLevel d1 height 0 - measureWaterLevel d2 height 0 = 0 ∧
    initialState.waterLimit = 0 := by
  refine ⟨?_, ?_, rfl⟩ <;> simp [measureWaterLevel]

/-- C9: every failure path of a remote call - no connectivity, a
non-positive HTTP response code, or an unparseable body - leaves the
cached device state entirely unchanged: `fetchDeviceInfo` returns `false`
with the prior state, and `makePostRequest` keeps both cached quantities. -/
theorem remoteFailure_leaves_state_unchanged (st : SketchState)
    (reqType : String) (quantity : ℚ) (action : String) :
    fetchDeviceInfo st .noWifi = (st, false) ∧
    fetchDeviceInfo st .httpError = (st, false) ∧
    fetchDeviceInfo st .parseError = (st, false) ∧
    (makePostRequest st reqType quantity action .httpError).1 = st ∧
    (makePostRequest st reqType quantity action .parseError).1 = st :=
  ⟨rfl, rfl, rfl, rfl, rfl⟩

/-- C2 (code bug): `endFillProcess` never writes `isFillingProcess` - no
call ever clears the session flag, whatever the outcome or the server
responses, contradicting the specified `active = false` postcondition. -/
theorem endFillProcess_keeps_isFillingProcess (st : SketchState)
    (currentTotalFood currentTotalWater : ℚ)
    (foodResponse waterResponse : PostResponse) :
    (endFillProcess st currentTotalFood currentTotalWater
        foodResponse waterResponse).1.isFillingProcess = st.isFillingProcess := by
  unfold endFillProcess makePostRequest
  cases foodResponse <;> cases waterResponse <;>
    simp only [] <;> split <;> simp_all <;> split <;> simp_all <;> split <;> simp_all

/-- C7 (code bug): `monitorFoodDispensing` recomputes the baseline from the
current tray reading minus the target (line 272), so whenever the two
consecutive scale reads agree the computed `dispensedAmount` equals
`targetAmount` and the actuator is closed immediately - for every state,
every target and every reading, independently of the baseline captured at
task start and of how much was actually dispensed. -/
theorem monitorFoodDispensing_always_closes (st : SketchState)
    (targetAmount r : ℚ) :
    monitorFoodDispensing st targetAmount r r
      = ({ st with isDispensing := false }, some 0) := by
  unfold monitorFoodDispensing stopFoodDispensing
  rw [if_pos]
  simp

/-- C1: the validation accepts exactly when both `addedFood + foodQuantity ≤
foodLimit` and `addedWater + waterQuantity ≤ waterLimit`; acceptance
coincides with the `valid` flag; a violated food constraint yields
`foodOverflow` no matter what the water constraint does (food is checked
first), and `waterOverflow` arises exactly when food passes and water
fails. -/
theorem validateFillQuantity_outcome (st : SketchState) (cf cw : ℚ) :
    ((validateFillQuantity st cf cw).2 = FillOutcome.accepted ↔
      cf - st.initialTotalFood + st.foodQuantity ≤ st.foodLimit ∧
      cw - st.initialTotalWater + st.waterQuantity ≤ st.waterLimit) ∧
    ((validateFillQuantity st cf cw).1.valid = true ↔
      (validateFillQuantity st cf cw).2 = FillOutcome.accepted) ∧
    (cf - st.initialTotalFood + st.foodQuantity > st.foodLimit →
      (validateFillQuantity st cf cw).2 = FillOutcome.foodOverflow) ∧
    (cf - st.initialTotalFood + st.foodQuantity ≤ st.foodLimit →
      cw - st.initialTotalWater + st.waterQuantity > st.waterLimit →
      (validateFillQuantity st cf cw).2 = FillOutcome.waterOverflow) := by
  unfold validateFillQuantity
  simp only []
  split_ifs with h1 h2 <;>
    refine ⟨?_, ?_, ?_, ?_⟩ <;> simp_all

/-- Witness for C1 at a state violating both constraints: the outcome is
`foodOverflow`, the food check coming first. -/
theorem validateFillQuantity_outcome_witness :
    (validateFillQuantity
      { initialState with
        foodQuantity := 1100
        foodLimit := 1000
        waterQuantity := 200
        waterLimit := 100 } 0 0).2
      = FillOutcome.foodOverflow :=
  (validateFillQuantity_outcome _ 0 0).2.2.1 (by norm_num [initialState])

/-- A concrete running state for worked examples: both limits 1000, both
cached quantities 0, a fill session active with both baselines 0. -/
def exampleFillState : SketchState :=
  { deviceId := "dev-1"
    foodQuantity := 0
    waterQuantity := 0
    foodLimit := 1000
    waterLimit := 1000
    isFillingProcess := true
    initialTotalFood := 0
    initialTotalWater := 0
    isDispensing := false }

/-- C3 (code bug): `endFillProcess` never consults `isFillingProcess`, and
no code path ever clears it, so a second `end` with unchanged sensor
readings re-validates against the stale baselines and re-issues the very
same POST: here the session's 300 g of food are reported twice. -/
theorem endFillProcess_double_reports :
    (endFillProcess exampleFillState 300 0
        (.ok 300 0) .httpError).2 = [⟨"food", 300, "add"⟩] ∧
    (endFillProcess
        (endFillProcess exampleFillState 300 0 (.ok 300 0) .httpError).1 300 0
        (.ok 600 0) .httpError).2 = [⟨"food", 300, "add"⟩] := by
  norm_num [endFillProcess, validateFillQuantity, makePostRequest, exampleFillState]

/-- C5: whenever validation rejects (outcome not `accepted`),
`endFillProcess` returns at once: the request list is empty - no POST
reaches the remote inventory - and the returned state is the input state,
every cached field (`deviceId`, quantities, limits) included. -/
theorem endFillProcess_rejection_atomic (st : SketchState)
    (currentTotalFood currentTotalWater : ℚ)
    (foodResponse waterResponse : PostResponse)
    (h : (validateFillQuantity st currentTotalFood currentTotalWater).2
          ≠ FillOutcome.accepted) :
    endFillProcess st currentTotalFood currentTotalWater foodResponse waterResponse
      = (st, []) := by
  have hvalid : (validateFillQuantity st currentTotalFood currentTotalWater).1.valid
      = false := by
    unfold validateFillQuantity at h ⊢
    simp only [] at h ⊢
    split_ifs at h ⊢ <;> simp_all
  unfold endFillProcess
  simp [hvalid]

/-- Witness for C5 on the spec's scenario 2: `foodQuantity = 900`,
`foodLimit = 1000`, `addedFood = 200` is rejected and the state and
request list are exactly `(st, [])`. -/
theorem endFillProcess_rejection_atomic_witness :
    (validateFillQuantity { exampleFillState with foodQuantity := 900 } 200 0).2
        ≠ FillOutcome.accepted ∧
    endFillProcess { exampleFillState with foodQuantity := 900 } 200 0
        (.ok 0 0) (.ok 0 0)
      = ({ exampleFillState with foodQuantity := 900 }, []) :=
  ⟨by norm_num [validateFillQuantity, exampleFillState] ; decide,
   endFillProcess_rejection_atomic _ 200 0 _ _
     (by norm_num [validateFillQuantity, exampleFillState] ; decide)⟩

/-- The deltas recorded by `validateFillQuantity` are the raw differences
of current and baseline readings, in every branch. -/
theorem validateFill_added (st : SketchState) (cf cw : ℚ) :
    (validateFillQuantity st cf cw).1.addedFood = cf - st.initialTotalFood ∧
    (validateFillQuantity st cf cw).1.addedWater = cw - st.initialTotalWater := by
  unfold validateFillQuantity
  simp only []
  split_ifs <;> simp

/-- The `valid` flag of `validateFillQuantity` is set exactly when both
capacity constraints hold. -/
theorem validateFill_valid_iff (st : SketchState) (cf cw : ℚ) :
    (validateFillQuantity st cf cw).1.valid = true ↔
      cf - st.initialTotalFood + st.foodQuantity ≤ st.foodLimit ∧
      cw - st.initialTotalWater + st.waterQuantity ≤ st.waterLimit := by
  unfold validateFillQuantity
  simp only []
  split_ifs <;> simp_all

/-- The POSTs issued by `endFillProcess`: none on rejection, otherwise a
food request exactly when the food delta is positive followed by a water
request exactly when the water delta is positive, each carrying the raw
delta and the action `add`. -/
theorem endFillProcess_requests (st : SketchState) (cf cw : ℚ)
    (fr wr : PostResponse) :
    (endFillProcess st cf cw fr wr).2 =
      if (validateFillQuantity st cf cw).1.valid = false then []
      else
        (if (validateFillQuantity st cf cw).1.addedFood > 0 then
          [(⟨"food", (validateFillQuantity st cf cw).1.addedFood, "add"⟩ : PostRequest)]
         else []) ++
        (if (validateFillQuantity st cf cw).1.addedWater > 0 then
          [(⟨"water", (validateFillQuantity st cf cw).1.addedWater, "add"⟩ : PostRequest)]
         else []) := by
  unfold endFillProcess
  generalize (validateFillQuantity st cf cw).1 = v
  cases fr <;> cases wr <;>
    simp only [makePostRequest] <;> split_ifs <;> simp_all

/-- The state produced by `endFillProcess` under parsed server responses:
unchanged on rejection; otherwise both cached quantities are overwritten
by the last POST's response body - the water response when a water request
went out, else the food response when a food request went out, else no
POST happened and the state is unchanged. -/
theorem endFillProcess_state (st : SketchState) (cf cw ffq fwq wfq wwq : ℚ) :
    (endFillProcess st cf cw (.ok ffq fwq) (.ok wfq wwq)).1 =
      if (validateFillQuantity st cf cw).1.valid = false then st
      else if (validateFillQuantity st cf cw).1.addedWater > 0 then
        { st with foodQuantity := wfq, waterQuantity := wwq }
      else if (validateFillQuantity st cf cw).1.addedFood > 0 then
        { st with foodQuantity := ffq, waterQuantity := fwq }
      else st := by
  unfold endFillProcess
  generalize (validateFillQuantity st cf cw).1 = v
  simp only [makePostRequest]
  split_ifs <;> simp_all

/-- C4 counterexample: a negative food delta is NOT treated as zero.  With
`initialTotalFood = 50` and a current reading of 0 the delta is `-50 < 0`;
the water check passes (`0 + 0 ≤ 1000`); yet with `foodQuantity = 1100`
over `foodLimit = 1000` the outcome is `foodOverflow`, not `accepted` as
the claim requires.  Moreover at `foodQuantity = 1040` the code accepts
(`-50 + 1040 ≤ 1000`) although a zero-contribution check would reject
(`1040 > 1000`): the delta enters the comparison as-is. -/
theorem negative_delta_not_zeroed_counterexample :
    ((0:ℚ) - 50 < 0) ∧
    ((0:ℚ) - 0 + 0 ≤ 1000) ∧
    (validateFillQuantity
      { exampleFillState with
        foodQuantity := 1100
        initialTotalFood := 50 } 0 0).2 ≠ FillOutcome.accepted ∧
    ((1040:ℚ) > 1000) ∧
    (validateFillQuantity
      { exampleFillState with
        foodQuantity := 1040
        initialTotalFood := 50 } 0 0).2 = FillOutcome.accepted := by
  norm_num [validateFillQuantity, exampleFillState] ; decide

theorem food_water_strings : ("food" ≠ "water") ∧ ("water" ≠ "food") := by
  decide

/-- The outcome is `foodOverflow` exactly when the food constraint is
violated - the food check comes first, so nothing else matters. -/
theorem validateFill_foodOverflow_iff (st : SketchState) (cf cw : ℚ) :
    (validateFillQuantity st cf cw).2 = FillOutcome.foodOverflow ↔
      cf - st.initialTotalFood + st.foodQuantity > st.foodLimit := by
  unfold validateFillQuantity
  simp only []
  split_ifs <;> simp_all

/-- The outcome is `waterOverflow` exactly when the food constraint holds
and the water constraint is violated. -/
theorem validateFill_waterOverflow_iff (st : SketchState) (cf cw : ℚ) :
    (validateFillQuantity st cf cw).2 = FillOutcome.waterOverflow ↔
      cf - st.initialTotalFood + st.foodQuantity ≤ st.foodLimit ∧
      cw - st.initialTotalWater + st.waterQuantity > st.waterLimit := by
  unfold validateFillQuantity
  simp only []
  split_ifs <;> simp_all

/-- The outcome is `accepted` exactly when both constraints hold. -/
theorem validateFill_accepted_iff (st : SketchState) (cf cw : ℚ) :
    (validateFillQuantity st cf cw).2 = FillOutcome.accepted ↔
      cf - st.initialTotalFood + st.foodQuantity ≤ st.foodLimit ∧
      cw - st.initialTotalWater + st.waterQuantity ≤ st.waterLimit := by
  unfold validateFillQuantity
  simp only []
  split_ifs <;> simp_all

/-- C4 amended: a negative delta is fed into the overflow comparison as-is
rather than clamped to zero.  With `addedFood < 0`: the outcome is
`foodOverflow` exactly when `addedFood + foodQuantity > foodLimit` - hence
only in states where `foodQuantity` already exceeds `foodLimit`, though
not in all of them - the negative food delta is never reported, and the
session ends `accepted` iff the as-is food check and the water check both
pass (not whenever the water check alone passes).  Symmetrically with
`addedWater < 0`: the outcome is `waterOverflow` exactly when the food
check passes and `addedWater + waterQuantity > waterLimit` - hence only
when `waterQuantity` already exceeds `waterLimit` - and the negative water
delta is never reported. -/
theorem validateFill_negative_delta (st : SketchState) (cf cw : ℚ)
    (foodResponse waterResponse : PostResponse) :
    (cf - st.initialTotalFood < 0 →
      (((validateFillQuantity st cf cw).2 = FillOutcome.foodOverflow ↔
         cf - st.initialTotalFood + st.foodQuantity > st.foodLimit) ∧
       ((validateFillQuantity st cf cw).2 = FillOutcome.foodOverflow →
         st.foodQuantity > st.foodLimit) ∧
       (∀ r ∈ (endFillProcess st cf cw foodResponse waterResponse).2,
         r.reqType ≠ "food") ∧
       ((validateFillQuantity st cf cw).2 = FillOutcome.accepted ↔
         cf - st.initialTotalFood + st.foodQuantity ≤ st.foodLimit ∧
         cw - st.initialTotalWater + st.waterQuantity ≤ st.waterLimit))) ∧
    (cw - st.initialTotalWater < 0 →
      (((validateFillQuantity st cf cw).2 = FillOutcome.waterOverflow ↔
         cf - st.initialTotalFood + st.foodQuantity ≤ st.foodLimit ∧
         cw - st.initialTotalWater + st.waterQuantity > st.waterLimit) ∧
       ((validateFillQuantity st cf cw).2 = FillOutcome.waterOverflow →
         st.waterQuantity > st.waterLimit) ∧
       (∀ r ∈ (endFillProcess st cf cw foodResponse waterResponse).2,
         r.reqType ≠ "water") ∧
       ((validateFillQuantity st cf cw).2 = FillOutcome.accepted ↔
         cf - st.initialTotalFood + st.foodQuantity ≤ st.foodLimit ∧
         cw - st.initialTotalWater + st.waterQuantity ≤ st.waterLimit))) := by
  have hadd := validateFill_added st cf cw
  have hreq := endFillProcess_requests st cf cw foodResponse waterResponse
  constructor
  · intro hneg
    refine ⟨validateFill_foodOverflow_iff st cf cw, ?_, ?_,
      validateFill_accepted_iff st cf cw⟩
    · intro hout
      have := (validateFill_foodOverflow_iff st cf cw).mp hout
      linarith
    · rw [hreq]
      have hadd1 := hadd.1
      split_ifs <;>
        first
          | (exfalso ; linarith)
          | (intro r hr ;
             simp_all [food_water_strings.1, food_water_strings.2])
          | simp
  · intro hneg
    refine ⟨validateFill_waterOverflow_iff st cf cw, ?_, ?_,
      validateFill_accepted_iff st cf cw⟩
    · intro hout
      have := ((validateFill_waterOverflow_iff st cf cw).mp hout).2
      linarith
    · rw [hreq]
      have hadd2 := hadd.2
      split_ifs <;>
        first
          | (exfalso ; linarith)
          | (intro r hr ;
             simp_all [food_water_strings.1, food_water_strings.2])
          | simp

/-- Witness for C4's amended statement at a session whose food delta is
`-50` and whose water delta is `-40`: neither kind is POSTed. -/
theorem validateFill_negative_delta_witness :
    ((0:ℚ) - 50 < 0) ∧ ((0:ℚ) - 40 < 0) ∧
    (∀ r ∈ (endFillProcess
        { exampleFillState with initialTotalFood := 50, initialTotalWater := 40 }
        0 0 .httpError .httpError).2, r.reqType ≠ "food") ∧
    (∀ r ∈ (endFillProcess
        { exampleFillState with initialTotalFood := 50, initialTotalWater := 40 }
        0 0 .httpError .httpError).2, r.reqType ≠ "water") :=
  ⟨by norm_num, by norm_num,
   ((validateFill_negative_delta _ 0 0 _ _).1
      (by norm_num [exampleFillState])).2.2.1,
   ((validateFill_negative_delta _ 0 0 _ _).2
      (by norm_num [exampleFillState])).2.2.1⟩

/-- C6: on acceptance with parsed server responses, food and water are
handled independently: a strictly positive delta is POSTed as
`(kind, delta, "add")` while a delta ≤ 0 is never POSTed; afterwards the
cached quantities hold the values returned by the server - those of the
last response received, never the locally computed sums. -/
theorem endFillProcess_accepted_reporting (st : SketchState) (cf cw : ℚ)
    (ffq fwq wfq wwq : ℚ)
    (h : (validateFillQuantity st cf cw).1.valid = true) :
    ((validateFillQuantity st cf cw).1.addedFood > 0 ↔
      (⟨"food", (validateFillQuantity st cf cw).1.addedFood, "add"⟩ : PostRequest)
        ∈ (endFillProcess st cf cw (.ok ffq fwq) (.ok wfq wwq)).2) ∧
    ((validateFillQuantity st cf cw).1.addedWater > 0 ↔
      (⟨"water", (validateFillQuantity st cf cw).1.addedWater, "add"⟩ : PostRequest)
        ∈ (endFillProcess st cf cw (.ok ffq fwq) (.ok wfq wwq)).2) ∧
    ((endFillProcess st cf cw (.ok ffq fwq) (.ok wfq wwq)).1.foodQuantity =
      if (validateFillQuantity st cf cw).1.addedWater > 0 then wfq
      else if (validateFillQuantity st cf cw).1.addedFood > 0 then ffq
      else st.foodQuantity) ∧
    ((endFillProcess st cf cw (.ok ffq fwq) (.ok wfq wwq)).1.waterQuantity =
      if (validateFillQuantity st cf cw).1.addedWater > 0 then wwq
      else if (validateFillQuantity st cf cw).1.addedFood > 0 then fwq
      else st.waterQuantity) := by
  rw [endFillProcess_requests, endFillProcess_state]
  simp only [h]
  refine ⟨?_, ?_, ?_, ?_⟩ <;>
    split_ifs <;>
      simp_all [food_water_strings.1, food_water_strings.2]

/-- Witness for C6 on the spec's scenario 1: `foodQuantity = 500`,
`addedFood = 300` is accepted, the POST `(food, 300, add)` is issued, and
the cached food quantity becomes the server's 800, not the local 800-sum
recomputation. -/
theorem endFillProcess_accepted_reporting_witness :
    ((⟨"food",
        (validateFillQuantity { exampleFillState with foodQuantity := 500 }
          300 0).1.addedFood, "add"⟩ : PostRequest)
      ∈ (endFillProcess { exampleFillState with foodQuantity := 500 } 300 0
          (.ok 800 0) (.ok 0 0)).2) ∧
    (endFillProcess { exampleFillState with foodQuantity := 500 } 300 0
        (.ok 800 0) (.ok 0 0)).1.foodQuantity = 800 :=
  ⟨((endFillProcess_accepted_reporting _ 300 0 800 0 0 0
      (by norm_num [validateFillQuantity, exampleFillState])).1).mp
      (by norm_num [validateFillQuantity, exampleFillState]),
   ((endFillProcess_accepted_reporting _ 300 0 800 0 0 0
      (by norm_num [validateFillQuantity, exampleFillState])).2.2.1).trans
      (by norm_num [validateFillQuantity, exampleFillState])⟩

/-- C8: one `checkAndDispenseFood` call issues a `startFoodDispensing`
exactly when `previousFoodQuantity - actualQuanitty > 0` and no dispense
is active, the start carries that difference as its amount, and the first
servo command of the call drives the actuator to 180 (open). -/
theorem checkAndDispenseFood_start (st : SketchState)
    (previousFoodQuantity actualQuanitty trayStartReading r1 r2 : ℚ) :
    (checkAndDispenseFood st previousFoodQuantity actualQuanitty
        trayStartReading r1 r2).started
      = (if previousFoodQuantity - actualQuanitty > 0 ∧ st.isDispensing = false
         then some (previousFoodQuantity - actualQuanitty) else none) ∧
    (previousFoodQuantity - actualQuanitty > 0 → st.isDispensing = false →
      (checkAndDispenseFood st previousFoodQuantity actualQuanitty
          trayStartReading r1 r2).servoCommands.head? = some 180) := by
  unfold checkAndDispenseFood startFoodDispensing monitorFoodDispensing
    stopFoodDispensing
  simp only []
  split_ifs <;> simp_all

/-- Witness for C8 on the spec's scenario 4: `previousTarget = 500`,
`currentServerQuantity = 450` starts a task of amount 50 with the servo
driven to 180. -/
theorem checkAndDispenseFood_start_witness :
    (checkAndDispenseFood initialState 500 450 100 100 100).started = some 50 ∧
    (checkAndDispenseFood initialState 500 450 100 100 100).servoCommands.head?
      = some 180 :=
  ⟨((checkAndDispenseFood_start initialState 500 450 100 100 100).1).trans
      (by norm_num [initialState]),
   (checkAndDispenseFood_start initialState 500 450 100 100 100).2
      (by norm_num) (by norm_num [initialState])⟩

end Masticat
